import Mathlib

/-!
Shallow embedding of the btle repository (HCI protocol layer) and proofs of
the specification claims. Byte buffers are modelled as `List Nat` whose
entries stand for `u8` values; machine-integer overflow is made explicit
with `% 256` and friends where it matters. Rust panics are modelled as
`none` of an outer `Option`; fallible Rust functions returning
`Result<_, E>` become `Except E _`.
-/

namespace Btle

/-! ## src/bytes.rs : boolean endian codec -/

/-- bool to_bytes_ne from src/bytes.rs: `[u8::from(*self)]`. -/
def bool_to_bytes_ne (b : Bool) : List Nat :=
  [if b then 1 else 0]

/-- bool to_bytes_le from src/bytes.rs: delegates to `to_bytes_ne`. -/
def bool_to_bytes_le (b : Bool) : List Nat :=
  bool_to_bytes_ne b

/-- bool to_bytes_be from src/bytes.rs: delegates to `to_bytes_ne`. -/
def bool_to_bytes_be (b : Bool) : List Nat :=
  bool_to_bytes_ne b

/-- bool from_bytes_ne from src/bytes.rs: requires a single byte, `0` decodes
to `false`, `1` to `true`, anything else is `None`. -/
def bool_from_bytes_ne (bytes : List Nat) : Option Bool :=
  match bytes with
  | [b] => if b = 0 then some false else if b = 1 then some true else none
  | _ => none

/-- bool from_bytes_le from src/bytes.rs: delegates to `from_bytes_ne`. -/
def bool_from_bytes_le (bytes : List Nat) : Option Bool :=
  bool_from_bytes_ne bytes

/-- bool from_bytes_be from src/bytes.rs: delegates to `from_bytes_ne`. -/
def bool_from_bytes_be (bytes : List Nat) : Option Bool :=
  bool_from_bytes_ne bytes

/-! ## src/bytes.rs : StaticBuf

`StaticBuf<ArrayBuf>` holds a fixed-size backing array and a logical length.
The backing array is modelled as a `List Nat` whose length is the static
capacity (`ArrayBuf::default().as_ref().len()`); `ArrayBuf::default()` is
the all-zero array. A panicking operation returns `none`. -/

structure StaticBuf where
  buf : List Nat
  len : Nat
deriving Repr, DecidableEq

/-- StaticBuf::max_size from src/bytes.rs: the length of the backing array. -/
def StaticBuf.max_size (b : StaticBuf) : Nat :=
  b.buf.length

/-- Storage::with_size for StaticBuf from src/bytes.rs: asserts
`size <= max_size` (panic modelled as `none`), then pairs a defaulted
(all-zero) backing array with logical length `size`. `capacity` is the
static capacity of the `ArrayBuf` type parameter. -/
def StaticBuf.with_size (capacity size : Nat) : Option StaticBuf :=
  if size ≤ capacity then
    some { buf := List.replicate capacity 0, len := size }
  else
    none

/-- StaticBuf::resize from src/bytes.rs: asserts `new_size <= max_size`
(panic modelled as `none`) and then only sets `self.len`. -/
def StaticBuf.resize (b : StaticBuf) (new_size : Nat) : Option StaticBuf :=
  if new_size ≤ b.max_size then
    some { b with len := new_size }
  else
    none

/-- AsRef for StaticBuf from src/bytes.rs: `&self.buf.as_ref()[..self.len]`. -/
def StaticBuf.as_ref (b : StaticBuf) : List Nat :=
  b.buf.take b.len

/-- Storage::len for StaticBuf from src/bytes.rs: returns `self.len`. -/
def StaticBuf.length (b : StaticBuf) : Nat :=
  b.len

/-! ## src/hci/mod.rs : opcode model -/

/-- HCIConversionError from src/hci/mod.rs (a unit struct). -/
inductive HCIConversionError where
  | mk
deriving Repr, DecidableEq

/-- HCIPackError from src/hci/mod.rs. -/
inductive HCIPackError where
  | BadOpcode
  | BadLength
  | SmallBuffer
  | BadBytes
deriving Repr, DecidableEq

/-- OGF (6-bit opcode group field) from src/hci/mod.rs. -/
inductive OGF where
  | NOP
  | LinkControl
  | LinkPolicy
  | HCIControlBaseband
  | InformationalParameters
  | StatusParameters
  | Testing
  | LEController
  | VendorSpecific
deriving Repr, DecidableEq

/-- From OGF for u8 from src/hci/mod.rs: the enum discriminants. -/
def OGF.toU8 : OGF → Nat
  | .NOP => 0x00
  | .LinkControl => 0x01
  | .LinkPolicy => 0x02
  | .HCIControlBaseband => 0x03
  | .InformationalParameters => 0x04
  | .StatusParameters => 0x05
  | .Testing => 0x06
  | .LEController => 0x08
  | .VendorSpecific => 0x3F

/-- TryFrom u8 for OGF from src/hci/mod.rs. -/
def OGF.tryFrom (value : Nat) : Except HCIConversionError OGF :=
  match value with
  | 0x00 => .ok .NOP
  | 0x01 => .ok .LinkControl
  | 0x02 => .ok .LinkPolicy
  | 0x03 => .ok .HCIControlBaseband
  | 0x04 => .ok .InformationalParameters
  | 0x05 => .ok .StatusParameters
  | 0x06 => .ok .Testing
  | 0x08 => .ok .LEController
  | 0x3F => .ok .VendorSpecific
  | _ => .error .mk

/-- OCF_MAX from src/hci/mod.rs: `(1 << 10) - 1`. -/
def OCF_MAX : Nat := (1 <<< 10) - 1

/-- OCF (10-bit opcode command field) from src/hci/mod.rs, a u16 newtype. -/
structure OCF where
  val : Nat
deriving Repr, DecidableEq

/-- OCF::new from src/hci/mod.rs: asserts `ocf <= OCF_MAX` (panic modelled
as `none`). -/
def OCF.new (ocf : Nat) : Option OCF :=
  if ocf ≤ OCF_MAX then some ⟨ocf⟩ else none

/-- OCF::new_masked from src/hci/mod.rs: `ocf & OCF_MAX`. -/
def OCF.new_masked (ocf : Nat) : OCF :=
  ⟨Nat.land ocf OCF_MAX⟩

/-- OPCODE_LEN from src/hci/mod.rs. -/
def OPCODE_LEN : Nat := 2

/-- Opcode from src/hci/mod.rs: a pair of an OGF and an OCF. -/
structure Opcode where
  ogf : OGF
  ocf : OCF
deriving Repr, DecidableEq

/-- From Opcode for u16 from src/hci/mod.rs, transcribed exactly:
`(opcode.1).0 & (u16::from(u8::from(opcode.0)) << 10)` — note the bitwise
AND. -/
def Opcode.toU16 (opcode : Opcode) : Nat :=
  Nat.land opcode.ocf.val (opcode.ogf.toU8 <<< 10)

/-- TryFrom u16 for Opcode from src/hci/mod.rs: the OGF comes from the high
6 bits (an unknown OGF is a conversion error), the OCF from masking the
value to 10 bits. -/
def Opcode.tryFromU16 (value : Nat) : Except HCIConversionError Opcode :=
  match OGF.tryFrom (value >>> 10) with
  | .error e => .error e
  | .ok ogf => .ok ⟨ogf, OCF.new_masked value⟩

/-- u16 to little-endian bytes (u16::to_bytes_le from src/bytes.rs). -/
def u16ToBytesLE (v : Nat) : List Nat :=
  [v % 256, v / 256 % 256]

/-- Opcode::pack from src/hci/mod.rs: fails with BadLength unless the
buffer length is exactly OPCODE_LEN, else overwrites both bytes with the
little-endian encoding of `u16::from(*self)`. The returned list is the
buffer after the write. -/
def Opcode.pack (opcode : Opcode) (buf : List Nat) :
    Except HCIPackError (List Nat) :=
  if buf.length ≠ OPCODE_LEN then
    .error .BadLength
  else
    .ok (u16ToBytesLE opcode.toU16)

/-- Opcode::unpack from src/hci/mod.rs: fails with BadLength unless the
buffer length is exactly OPCODE_LEN, else decodes the little-endian u16 and
converts it, turning an unknown-OGF conversion error into BadBytes. -/
def Opcode.unpack (buf : List Nat) : Except HCIPackError Opcode :=
  match buf with
  | [a, b] =>
    match Opcode.tryFromU16 (a + 256 * b) with
    | .error _ => .error .BadBytes
    | .ok opcode => .ok opcode
  | _ => .error .BadLength

/-- Opcode::nop from src/hci/mod.rs. -/
def Opcode.nop : Opcode := ⟨.NOP, ⟨0⟩⟩

/-! ## src/hci/mod.rs : Command::pack_full

A Command implementation is polymorphic over its payload serializer
`pack_into`, which mutates a caller slice in place (so it preserves the
slice length by construction) and may fail with an HCIPackError. -/

/-- Type of Command::pack_into implementations: an in-place writer on a
byte slice, preserving its length. -/
def PackIntoFn : Type :=
  (b : List Nat) → Except HCIPackError { l : List Nat // l.length = b.length }

/-- Command::pack_full from src/hci/mod.rs for a command with fixed opcode
`opcode`, declared payload length `byte_len` and payload serializer
`pack_into`: fails with BadLength unless `buf.len() == byte_len + OPCODE_LEN
+ 1`; otherwise runs `pack_into` on `buf[3..]`, packs the opcode into
`buf[..2]`, stores `byte_len` as a u8 in `buf[2]` (panic, modelled as the
outer `none`, when `byte_len > 0xFF`) and returns the written buffer
together with `byte_len + OPCODE_LEN`. -/
def Command.pack_full (opcode : Opcode) (byte_len : Nat)
    (pack_into : PackIntoFn) (buf : List Nat) :
    Option (Except HCIPackError (List Nat × Nat)) :=
  if buf.length ≠ byte_len + OPCODE_LEN + 1 then
    some (.error .BadLength)
  else
    match pack_into (buf.drop 3) with
    | .error e => some (.error e)
    | .ok payload =>
      match opcode.pack (buf.take OPCODE_LEN) with
      | .error e => some (.error e)
      | .ok header =>
        if byte_len ≤ 0xFF then
          some (.ok (header ++ [byte_len] ++ payload.val,
            byte_len + OPCODE_LEN))
        else
          none

/-- A pack_into implementation that leaves the slice unchanged (used to
instantiate generic theorems at a concrete command). -/
def packIntoId : PackIntoFn :=
  fun b => .ok ⟨b, rfl⟩

/-! ## src/hci/mod.rs : event codes, error codes, return parameters -/

/-- EventCode from src/hci/mod.rs: 8-bit HCI event codes. -/
inductive EventCode where
  | InquiryComplete
  | InquiryResult
  | ConnectionComplete
  | ConnectionRequest
  | DisconnectionComplete
  | AuthenticationComplete
  | RemoteNameRequestComplete
  | EncryptionChange
  | ChangeConnectionLinkKeyComplete
  | MasterLinkKeyComplete
  | ReadRemoteSupportedFeaturesComplete
  | ReadRemoteVersionInformationComplete
  | QoSSetupComplete
  | CommandComplete
  | CommandStatus
  | FlushOccurred
  | RoleChange
  | NumberOfCompletedPackets
  | ModeChange
  | ReturnLinkKeys
  | PINCodeRequest
  | LinkKeyRequest
  | LinkKeyNotification
  | LoopbackCommand
  | DataBufferOverflow
  | MaxSlotsChange
  | ReadClockOffsetComplete
  | ConnectionPacketTypeChanged
  | QoSViolation
  | PageScanRepetitionModeChange
  | FlowSpecificationComplete
  | InquiryResultWithRSSI
  | ReadRemoteExtendedFeaturesComplete
  | SynchronousConnectionComplete
  | SynchronousConnectionChanged
  | SniffSubrating
  | ExtendedInquiryResult
  | EncryptionKeyRefreshComplete
  | IOCapabilityRequest
  | IOCapabilityResponse
  | UserConfirmationRequest
  | UserPasskeyRequest
  | RemoteOOBDataRequest
  | SimplePairingComplete
  | LinkSupervisionTimeoutChanged
  | EnhancedFlushComplete
  | UserPasskeyNotification
  | KeypressNotification
  | RemoteHostSupportedFeaturesNotification
  | PhysicalLinkComplete
  | ChannelSelected
  | DisconnectionPhysicalLinkComplete
  | PhysicalLinkLostEarlyWarning
  | PhysicalLinkRecovery
  | LogicalLinkComplete
  | DisconnectionLogicalLinkComplete
  | FlowSpecModifyComplete
  | NumberOfCompletedDataBlocks
  | ShortRangeModeChangeComplete
  | AMPStatusChange
  | AMPStartTest
  | AMPTestEnd
  | AMPReceiverReport
  | LEMeta
deriving Repr, DecidableEq

/-- From EventCode for u8 from src/hci/mod.rs: the enum discriminants. -/
def EventCode.toU8 : EventCode → Nat
  | .InquiryComplete => 0x01
  | .InquiryResult => 0x02
  | .ConnectionComplete => 0x03
  | .ConnectionRequest => 0x04
  | .DisconnectionComplete => 0x05
  | .AuthenticationComplete => 0x06
  | .RemoteNameRequestComplete => 0x07
  | .EncryptionChange => 0x08
  | .ChangeConnectionLinkKeyComplete => 0x09
  | .MasterLinkKeyComplete => 0x0A
  | .ReadRemoteSupportedFeaturesComplete => 0x0B
  | .ReadRemoteVersionInformationComplete => 0x0C
  | .QoSSetupComplete => 0x0D
  | .CommandComplete => 0x0E
  | .CommandStatus => 0x0F
  | .FlushOccurred => 0x11
  | .RoleChange => 0x12
  | .NumberOfCompletedPackets => 0x13
  | .ModeChange => 0x14
  | .ReturnLinkKeys => 0x15
  | .PINCodeRequest => 0x16
  | .LinkKeyRequest => 0x17
  | .LinkKeyNotification => 0x18
  | .LoopbackCommand => 0x19
  | .DataBufferOverflow => 0x1A
  | .MaxSlotsChange => 0x1B
  | .ReadClockOffsetComplete => 0x1C
  | .ConnectionPacketTypeChanged => 0x1D
  | .QoSViolation => 0x1E
  | .PageScanRepetitionModeChange => 0x20
  | .FlowSpecificationComplete => 0x21
  | .InquiryResultWithRSSI => 0x22
  | .ReadRemoteExtendedFeaturesComplete => 0x23
  | .SynchronousConnectionComplete => 0x2C
  | .SynchronousConnectionChanged => 0x2D
  | .SniffSubrating => 0x2E
  | .ExtendedInquiryResult => 0x2F
  | .EncryptionKeyRefreshComplete => 0x30
  | .IOCapabilityRequest => 0x31
  | .IOCapabilityResponse => 0x32
  | .UserConfirmationRequest => 0x33
  | .UserPasskeyRequest => 0x34
  | .RemoteOOBDataRequest => 0x35
  | .SimplePairingComplete => 0x36
  | .LinkSupervisionTimeoutChanged => 0x38
  | .EnhancedFlushComplete => 0x39
  | .UserPasskeyNotification => 0x3B
  | .KeypressNotification => 0x3C
  | .RemoteHostSupportedFeaturesNotification => 0x3D
  | .PhysicalLinkComplete => 0x40
  | .ChannelSelected => 0x41
  | .DisconnectionPhysicalLinkComplete => 0x42
  | .PhysicalLinkLostEarlyWarning => 0x43
  | .PhysicalLinkRecovery => 0x44
  | .LogicalLinkComplete => 0x45
  | .DisconnectionLogicalLinkComplete => 0x46
  | .FlowSpecModifyComplete => 0x47
  | .NumberOfCompletedDataBlocks => 0x48
  | .ShortRangeModeChangeComplete => 0x4C
  | .AMPStatusChange => 0x4D
  | .AMPStartTest => 0x49
  | .AMPTestEnd => 0x4A
  | .AMPReceiverReport => 0x4B
  | .LEMeta => 0x3E

/-- TryFrom u8 for EventCode from src/hci/mod.rs, transcribed exactly in
the source's arm order — including the arms `0x33 => IOCapabilityRequest`
and `0x31 => UserConfirmationRequest`, which are swapped relative to the
enum discriminants (IOCapabilityRequest = 0x31,
UserConfirmationRequest = 0x33). -/
def EventCode.tryFrom (value : Nat) : Except HCIConversionError EventCode :=
  match value with
  | 0x01 => .ok .InquiryComplete
  | 0x02 => .ok .InquiryResult
  | 0x03 => .ok .ConnectionComplete
  | 0x04 => .ok .ConnectionRequest
  | 0x05 => .ok .DisconnectionComplete
  | 0x06 => .ok .AuthenticationComplete
  | 0x07 => .ok .RemoteNameRequestComplete
  | 0x08 => .ok .EncryptionChange
  | 0x09 => .ok .ChangeConnectionLinkKeyComplete
  | 0x0A => .ok .MasterLinkKeyComplete
  | 0x0B => .ok .ReadRemoteSupportedFeaturesComplete
  | 0x0C => .ok .ReadRemoteVersionInformationComplete
  | 0x0D => .ok .QoSSetupComplete
  | 0x0E => .ok .CommandComplete
  | 0x0F => .ok .CommandStatus
  | 0x11 => .ok .FlushOccurred
  | 0x12 => .ok .RoleChange
  | 0x13 => .ok .NumberOfCompletedPackets
  | 0x14 => .ok .ModeChange
  | 0x15 => .ok .ReturnLinkKeys
  | 0x16 => .ok .PINCodeRequest
  | 0x17 => .ok .LinkKeyRequest
  | 0x18 => .ok .LinkKeyNotification
  | 0x19 => .ok .LoopbackCommand
  | 0x1A => .ok .DataBufferOverflow
  | 0x1B => .ok .MaxSlotsChange
  | 0x1C => .ok .ReadClockOffsetComplete
  | 0x1D => .ok .ConnectionPacketTypeChanged
  | 0x1E => .ok .QoSViolation
  | 0x20 => .ok .PageScanRepetitionModeChange
  | 0x21 => .ok .FlowSpecificationComplete
  | 0x22 => .ok .InquiryResultWithRSSI
  | 0x23 => .ok .ReadRemoteExtendedFeaturesComplete
  | 0x2C => .ok .SynchronousConnectionComplete
  | 0x2D => .ok .SynchronousConnectionChanged
  | 0x2E => .ok .SniffSubrating
  | 0x2F => .ok .ExtendedInquiryResult
  | 0x30 => .ok .EncryptionKeyRefreshComplete
  | 0x33 => .ok .IOCapabilityRequest
  | 0x32 => .ok .IOCapabilityResponse
  | 0x31 => .ok .UserConfirmationRequest
  | 0x34 => .ok .UserPasskeyRequest
  | 0x35 => .ok .RemoteOOBDataRequest
  | 0x36 => .ok .SimplePairingComplete
  | 0x38 => .ok .LinkSupervisionTimeoutChanged
  | 0x39 => .ok .EnhancedFlushComplete
  | 0x3B => .ok .UserPasskeyNotification
  | 0x3C => .ok .KeypressNotification
  | 0x3D => .ok .RemoteHostSupportedFeaturesNotification
  | 0x40 => .ok .PhysicalLinkComplete
  | 0x41 => .ok .ChannelSelected
  | 0x42 => .ok .DisconnectionPhysicalLinkComplete
  | 0x43 => .ok .PhysicalLinkLostEarlyWarning
  | 0x44 => .ok .PhysicalLinkRecovery
  | 0x45 => .ok .LogicalLinkComplete
  | 0x46 => .ok .DisconnectionLogicalLinkComplete
  | 0x47 => .ok .FlowSpecModifyComplete
  | 0x48 => .ok .NumberOfCompletedDataBlocks
  | 0x4C => .ok .ShortRangeModeChangeComplete
  | 0x4D => .ok .AMPStatusChange
  | 0x49 => .ok .AMPStartTest
  | 0x4A => .ok .AMPTestEnd
  | 0x4B => .ok .AMPReceiverReport
  | 0x3E => .ok .LEMeta
  | _ => .error .mk

/-- ErrorCode from src/hci/mod.rs: HCI controller error codes. -/
inductive ErrorCode where
  | Ok
  | UnknownHCICommand
  | NoConnection
  | HardwareFailure
  | PageTimeout
  | AuthenticationFailure
  | KeyMissing
  | MemoryFull
  | ConnectionTimeout
  | MaxNumberOfConnections
  | MaxNumberOfSCOConnectionsToADevice
  | ACLConnectionAlreadyExists
  | CommandDisallowed
  | HostRejectedDueToLimitedResources
  | HostRejectedDueToSecurityReasons
  | HostRejectedDueToARemoteDeviceOnlyAPersonalDevice
  | HostTimeout
  | UnsupportedFeatureOrParameterValue
  | InvalidHCICommandParameters
  | OtherEndTerminatedConnectionUserEndedConnection
  | OtherEndTerminatedConnectionLowResources
  | OtherEndTerminatedConnectionAboutToPowerOff
  | ConnectionTerminatedByLocalHost
  | RepeatedAttempts
  | PairingNotAllowed
  | UnknownLMPPDU
  | UnsupportedRemoteFeature
  | SCOOffsetRejected
  | SCOIntervalRejected
  | SCOAirModeRejected
  | InvalidLMPParameters
  | UnspecifiedError
  | UnsupportedLMPParameter
  | RoleChangeNotAllowed
  | LMPResponseTimeout
  | LMPErrorTransactionCollision
  | LMPPDUNotAllowed
  | EncryptionModeNotAcceptable
  | UnitKeyUsed
  | QoSNotSupported
  | InstantPassed
  | PairingWithUnitKeyNotSupported
  | TransactionCollision
  | QOSUnacceptableParameter
  | QOSRejected
  | ClassificationNotSupported
  | InsufficientSecurity
  | ParameterOutOfRange
  | RoleSwitchPending
  | SlotViolation
  | RoleSwitchFailed
  | EIRTooLarge
  | SimplePairingNotSupported
  | HostBusyPairing
deriving Repr, DecidableEq

/-- From ErrorCode for u8 from src/hci/mod.rs: the enum discriminants. -/
def ErrorCode.toU8 : ErrorCode → Nat
  | .Ok => 0x00
  | .UnknownHCICommand => 0x01
  | .NoConnection => 0x02
  | .HardwareFailure => 0x03
  | .PageTimeout => 0x04
  | .AuthenticationFailure => 0x05
  | .KeyMissing => 0x06
  | .MemoryFull => 0x07
  | .ConnectionTimeout => 0x08
  | .MaxNumberOfConnections => 0x09
  | .MaxNumberOfSCOConnectionsToADevice => 0x0A
  | .ACLConnectionAlreadyExists => 0x0B
  | .CommandDisallowed => 0x0C
  | .HostRejectedDueToLimitedResources => 0x0D
  | .HostRejectedDueToSecurityReasons => 0x0E
  | .HostRejectedDueToARemoteDeviceOnlyAPersonalDevice => 0x0F
  | .HostTimeout => 0x10
  | .UnsupportedFeatureOrParameterValue => 0x11
  | .InvalidHCICommandParameters => 0x12
  | .OtherEndTerminatedConnectionUserEndedConnection => 0x13
  | .OtherEndTerminatedConnectionLowResources => 0x14
  | .OtherEndTerminatedConnectionAboutToPowerOff => 0x15
  | .ConnectionTerminatedByLocalHost => 0x16
  | .RepeatedAttempts => 0x17
  | .PairingNotAllowed => 0x18
  | .UnknownLMPPDU => 0x19
  | .UnsupportedRemoteFeature => 0x1A
  | .SCOOffsetRejected => 0x1B
  | .SCOIntervalRejected => 0x1C
  | .SCOAirModeRejected => 0x1D
  | .InvalidLMPParameters => 0x1E
  | .UnspecifiedError => 0x1F
  | .UnsupportedLMPParameter => 0x20
  | .RoleChangeNotAllowed => 0x21
  | .LMPResponseTimeout => 0x22
  | .LMPErrorTransactionCollision => 0x23
  | .LMPPDUNotAllowed => 0x24
  | .EncryptionModeNotAcceptable => 0x25
  | .UnitKeyUsed => 0x26
  | .QoSNotSupported => 0x27
  | .InstantPassed => 0x28
  | .PairingWithUnitKeyNotSupported => 0x29
  | .TransactionCollision => 0x2A
  | .QOSUnacceptableParameter => 0x2C
  | .QOSRejected => 0x2D
  | .ClassificationNotSupported => 0x2E
  | .InsufficientSecurity => 0x2F
  | .ParameterOutOfRange => 0x30
  | .RoleSwitchPending => 0x32
  | .SlotViolation => 0x34
  | .RoleSwitchFailed => 0x35
  | .EIRTooLarge => 0x36
  | .SimplePairingNotSupported => 0x37
  | .HostBusyPairing => 0x38

/-- TryFrom u8 for ErrorCode from src/hci/mod.rs. Note that the source
match stops at 0x29 (PairingWithUnitKeyNotSupported); every larger value,
including the discriminants of the remaining ErrorCode variants, falls to
the error arm. -/
def ErrorCode.tryFrom (value : Nat) : Except HCIConversionError ErrorCode :=
  match value with
  | 0x00 => .ok .Ok
  | 0x01 => .ok .UnknownHCICommand
  | 0x02 => .ok .NoConnection
  | 0x03 => .ok .HardwareFailure
  | 0x04 => .ok .PageTimeout
  | 0x05 => .ok .AuthenticationFailure
  | 0x06 => .ok .KeyMissing
  | 0x07 => .ok .MemoryFull
  | 0x08 => .ok .ConnectionTimeout
  | 0x09 => .ok .MaxNumberOfConnections
  | 0x0A => .ok .MaxNumberOfSCOConnectionsToADevice
  | 0x0B => .ok .ACLConnectionAlreadyExists
  | 0x0C => .ok .CommandDisallowed
  | 0x0D => .ok .HostRejectedDueToLimitedResources
  | 0x0E => .ok .HostRejectedDueToSecurityReasons
  | 0x0F => .ok .HostRejectedDueToARemoteDeviceOnlyAPersonalDevice
  | 0x10 => .ok .HostTimeout
  | 0x11 => .ok .UnsupportedFeatureOrParameterValue
  | 0x12 => .ok .InvalidHCICommandParameters
  | 0x13 => .ok .OtherEndTerminatedConnectionUserEndedConnection
  | 0x14 => .ok .OtherEndTerminatedConnectionLowResources
  | 0x15 => .ok .OtherEndTerminatedConnectionAboutToPowerOff
  | 0x16 => .ok .ConnectionTerminatedByLocalHost
  | 0x17 => .ok .RepeatedAttempts
  | 0x18 => .ok .PairingNotAllowed
  | 0x19 => .ok .UnknownLMPPDU
  | 0x1A => .ok .UnsupportedRemoteFeature
  | 0x1B => .ok .SCOOffsetRejected
  | 0x1C => .ok .SCOIntervalRejected
  | 0x1D => .ok .SCOAirModeRejected
  | 0x1E => .ok .InvalidLMPParameters
  | 0x1F => .ok .UnspecifiedError
  | 0x20 => .ok .UnsupportedLMPParameter
  | 0x21 => .ok .RoleChangeNotAllowed
  | 0x22 => .ok .LMPResponseTimeout
  | 0x23 => .ok .LMPErrorTransactionCollision
  | 0x24 => .ok .LMPPDUNotAllowed
  | 0x25 => .ok .EncryptionModeNotAcceptable
  | 0x26 => .ok .UnitKeyUsed
  | 0x27 => .ok .QoSNotSupported
  | 0x28 => .ok .InstantPassed
  | 0x29 => .ok .PairingWithUnitKeyNotSupported
  | _ => .error .mk

/-- EventPacket from src/hci/mod.rs: an event code paired with an opaque
byte payload. -/
structure EventPacket where
  event_opcode : EventCode
  parameters : List Nat
deriving Repr, DecidableEq

/-- ReturnParameters::unpack_from_packet from src/hci/mod.rs (the provided
trait method), for a Return type with fixed event code `event_code` and
payload decoder `unpack_from`: fails with BadOpcode when the packet event
code differs from `event_code`, otherwise delegates to `unpack_from` on
the packet parameters. -/
def ReturnParameters.unpack_from_packet {R : Type}
    (event_code : EventCode) (unpack_from : List Nat → Except HCIPackError R)
    (packet : EventPacket) : Except HCIPackError R :=
  if packet.event_opcode ≠ event_code then
    .error .BadOpcode
  else
    unpack_from packet.parameters

/-- StatusReturn from src/hci/mod.rs. -/
structure StatusReturn where
  status : ErrorCode
deriving Repr, DecidableEq

/-- StatusReturn::byte_len from src/hci/mod.rs. -/
def StatusReturn.byte_len : Nat := 1

/-- ReturnParameters::EVENT_CODE for StatusReturn from src/hci/mod.rs. -/
def StatusReturn.EVENT_CODE : EventCode := .CommandComplete

/-- StatusReturn::unpack_from from src/hci/mod.rs: fails with BadLength
unless the buffer has exactly one byte, then converts `buf[0]` (written
here as `buf.getD 0 0`, equal to `buf[0]` under the length guard) to an
ErrorCode, turning a conversion failure into BadBytes. -/
def StatusReturn.unpack_from (buf : List Nat) :
    Except HCIPackError StatusReturn :=
  if buf.length ≠ StatusReturn.byte_len then
    .error .BadLength
  else
    match ErrorCode.tryFrom (buf.getD 0 0) with
    | .error _ => .error .BadBytes
    | .ok code => .ok ⟨code⟩

/-! ## src/hci/adapter.rs : the Adapter send_command protocol

The transport and the command/return codecs are parameters, matching the
trait-generic Rust code. The returned pair carries the protocol result and
the number of read_event attempts that were made. -/

/-- Modelled from the spec: transport-level I/O error (crate::error::IOError
is not under src/; its variants play no role in the claims). -/
inductive IOError where
  | mk
deriving Repr, DecidableEq

/-- Modelled from the spec: StreamError (src/hci/stream.rs is not under
src/). The error taxonomy of section 7 includes the command-codec failure,
the event-codec failure, and the bounded-retry exhaustion "stream failed";
these are exactly the constructors send_command uses. -/
inductive StreamError where
  | CommandError (e : HCIPackError)
  | EventError (e : HCIPackError)
  | StreamFailed
deriving Repr, DecidableEq

/-- Error from src/hci/adapter.rs: the adapter error taxonomy. -/
inductive AdapterError where
  | BadParameter
  | IOError (e : Btle.IOError)
  | StreamError (e : Btle.StreamError)
  | ErrorCode (code : Btle.ErrorCode)
deriving Repr, DecidableEq

/-- The event-read retry loop of Adapter::send_command from
src/hci/adapter.rs: `for _try_i in 0..HCI_EVENT_READ_TRIES { ... }`
followed by the StreamFailed fallthrough. `readEvent i` is the result of
the i-th read_event call; `unpackReturn` is Cmd::unpack_return (modelled
from the spec, src/hci/command.rs not being under src/: it yields
`some ret` on the matching completion event, `none` on a non-matching
event, and an HCIPackError on a malformed event, which surfaces as
StreamError::EventError). `reads` counts read_event attempts made so far
and is returned alongside the result. -/
def sendCommandLoop {Ev Ret : Type}
    (readEvent : Nat → Except AdapterError Ev)
    (unpackReturn : Ev → Except HCIPackError (Option Ret)) :
    Nat → Nat → Except AdapterError Ret × Nat
  | 0, reads => (.error (.StreamError .StreamFailed), reads)
  | remaining + 1, reads =>
    match readEvent reads with
    | .error e => (.error e, reads + 1)
    | .ok ev =>
      match unpackReturn ev with
      | .error pe => (.error (.StreamError (.EventError pe)), reads + 1)
      | .ok (some ret) => (.ok ret, reads + 1)
      | .ok none => sendCommandLoop readEvent unpackReturn remaining (reads + 1)

/-- Adapter::send_command from src/hci/adapter.rs: pack the command (a
packing failure becomes StreamError::CommandError), write the packed
packet to the transport (a write failure returns immediately), then run
the bounded event-read loop. `tries` stands for HCI_EVENT_READ_TRIES,
whose value lives in src/hci/stream.rs (not under src/); every theorem
below holds for each value of it. The second component counts read_event
attempts. -/
def Adapter.send_command {Pkt Ev Ret : Type} (tries : Nat)
    (packResult : Except HCIPackError Pkt)
    (writeCommand : Pkt → Except AdapterError Unit)
    (readEvent : Nat → Except AdapterError Ev)
    (unpackReturn : Ev → Except HCIPackError (Option Ret)) :
    Except AdapterError Ret × Nat :=
  match packResult with
  | .error pe => (.error (.StreamError (.CommandError pe)), 0)
  | .ok pkt =>
    match writeCommand pkt with
    | .error e => (.error e, 0)
    | .ok _ => sendCommandLoop readEvent unpackReturn tries 0

end Btle

namespace Btle

/-- C7: bool from_bytes_ne decodes `[0]` to `some false`, `[1]` to
`some true`, rejects every other single byte, the empty list and every list
whose length is not one; and the little-endian, big-endian and
native-endian boolean codecs all coincide. -/
theorem bool_codec_c7 :
    bool_from_bytes_ne [0] = some false ∧
    bool_from_bytes_ne [1] = some true ∧
    (∀ b : Nat, b ≠ 0 → b ≠ 1 → bool_from_bytes_ne [b] = none) ∧
    bool_from_bytes_ne [] = none ∧
    (∀ bytes : List Nat, bytes.length ≠ 1 → bool_from_bytes_ne bytes = none) ∧
    (∀ bytes : List Nat,
      bool_from_bytes_le bytes = bool_from_bytes_ne bytes ∧
      bool_from_bytes_be bytes = bool_from_bytes_ne bytes) ∧
    (∀ b : Bool,
      bool_to_bytes_le b = bool_to_bytes_ne b ∧
      bool_to_bytes_be b = bool_to_bytes_ne b) := by
  refine ⟨rfl, rfl, ?_, rfl, ?_, ?_, ?_⟩
  · intro b h0 h1
    simp [bool_from_bytes_ne, h0, h1]
  · intro bytes h
    match bytes with
    | [] => rfl
    | [b] => exact absurd rfl h
    | a :: b :: rest => rfl
  · intro bytes
    exact ⟨rfl, rfl⟩
  · intro b
    exact ⟨rfl, rfl⟩

/-- C7 witness: the theorem applied at concrete inputs. -/
theorem bool_codec_c7_witness :
    bool_from_bytes_ne [2] = none ∧
    bool_from_bytes_ne [0, 0] = none ∧
    bool_from_bytes_le [1] = bool_from_bytes_ne [1] ∧
    bool_to_bytes_be true = bool_to_bytes_ne true := by
  refine ⟨?_, ?_, ?_, ?_⟩
  · exact bool_codec_c7.2.2.1 2 (by decide) (by decide)
  · exact bool_codec_c7.2.2.2.2.1 [0, 0] (by decide)
  · exact (bool_codec_c7.2.2.2.2.2.1 [1]).1
  · exact (bool_codec_c7.2.2.2.2.2.2 true).2

/-- C6: for a fixed-capacity StaticBuf, with_size and resize panic
(modelled as `none`) whenever the requested size exceeds the capacity, and
for a request within capacity with_size yields a buffer whose logical
length equals the request. -/
theorem staticbuf_with_size_resize_c6 (capacity n : Nat) (b : StaticBuf) :
    (capacity < n → StaticBuf.with_size capacity n = none) ∧
    (b.max_size < n → b.resize n = none) ∧
    (n ≤ capacity →
      (StaticBuf.with_size capacity n).map StaticBuf.length = some n) := by
  refine ⟨?_, ?_, ?_⟩
  · intro h
    simp [StaticBuf.with_size, Nat.not_le_of_lt h]
  · intro h
    simp [StaticBuf.resize, Nat.not_le_of_lt h]
  · intro h
    simp [StaticBuf.with_size, h, StaticBuf.length]

/-- C6 witness: the theorem applied at concrete inputs. -/
theorem staticbuf_with_size_resize_c6_witness :
    StaticBuf.with_size 2 5 = none ∧
    StaticBuf.resize ⟨[0, 0], 0⟩ 5 = none ∧
    (StaticBuf.with_size 10 3).map StaticBuf.length = some 3 := by
  refine ⟨?_, ?_, ?_⟩
  · exact (staticbuf_with_size_resize_c6 2 5 ⟨[0, 0], 0⟩).1 (by decide)
  · exact (staticbuf_with_size_resize_c6 2 5 ⟨[0, 0], 0⟩).2.1 (by decide)
  · exact (staticbuf_with_size_resize_c6 10 3 ⟨[0, 0], 0⟩).2.2 (by decide)

/-- C8: resize within capacity changes only the logical length field — the
backing bytes are untouched — so shrinking to `n` and growing back to `m`
leaves every byte below the new length holding its previous value. -/
theorem staticbuf_resize_frame_c8 (b : StaticBuf) (n m : Nat)
    (hn : n ≤ b.max_size) (hm : m ≤ b.max_size) :
    b.resize n = some ⟨b.buf, n⟩ ∧
    ((b.resize n).bind (fun b2 => b2.resize m)) = some ⟨b.buf, m⟩ ∧
    (∀ i : Nat, i < m →
      (StaticBuf.as_ref ⟨b.buf, m⟩).get? i = b.buf.get? i) := by
  refine ⟨?_, ?_, ?_⟩
  · simp [StaticBuf.resize, hn]
  · simp [StaticBuf.resize, StaticBuf.max_size] at hn hm ⊢
    simp [hn, hm]
  · intro i hi
    simp [StaticBuf.as_ref, List.getElem?_take_of_lt hi]

/-- C8 witness: the theorem applied at a concrete buffer holding written
bytes; shrinking to 1 and growing back to 3 preserves the byte at index 2. -/
theorem staticbuf_resize_frame_c8_witness :
    StaticBuf.resize ⟨[7, 8, 9], 3⟩ 1 = some ⟨[7, 8, 9], 1⟩ ∧
    ((StaticBuf.resize ⟨[7, 8, 9], 3⟩ 1).bind (fun b2 => b2.resize 3)) =
      some ⟨[7, 8, 9], 3⟩ ∧
    (StaticBuf.as_ref ⟨[7, 8, 9], 3⟩).get? 2 = ([7, 8, 9] : List Nat).get? 2 := by
  have h := staticbuf_resize_frame_c8 ⟨[7, 8, 9], 3⟩ 1 3 (by decide) (by decide)
  exact ⟨h.1, h.2.1, h.2.2 2 (by decide)⟩

/-- C1: the claimed pack/unpack round-trip fails on the code. Packing the
valid opcode (OGF LinkControl, OCF 1) writes the bytes [0, 0] — because
From Opcode for u16 combines the fields with a bitwise AND — and unpacking
[0, 0] yields the NOP opcode, not the original. -/
theorem opcode_roundtrip_c1_bug :
    Opcode.pack ⟨.LinkControl, ⟨1⟩⟩ [7, 7] = .ok [0, 0] ∧
    Opcode.unpack [0, 0] = .ok ⟨.NOP, ⟨0⟩⟩ ∧
    (⟨.NOP, ⟨0⟩⟩ : Opcode) ≠ ⟨.LinkControl, ⟨1⟩⟩ :=
  ⟨rfl, rfl, by decide⟩

/-- C3: the claimed bit layout fails on the code. For the valid opcode
(OGF LinkControl, OCF 1) the claim requires the 16-bit word
`0x0401 = (1 <<< 10) ||| 1`, packed little-endian as [0x01, 0x04]; the code
computes the word with a bitwise AND, giving 0, and packs [0x00, 0x00]. -/
theorem opcode_pack_layout_c3_bug :
    Opcode.toU16 ⟨.LinkControl, ⟨1⟩⟩ = 0 ∧
    Opcode.pack ⟨.LinkControl, ⟨1⟩⟩ [9, 9] = .ok [0x00, 0x00] ∧
    ([0x00, 0x00] : List Nat) ≠ [0x01, 0x04] :=
  ⟨rfl, rfl, by decide⟩

/-- C4: Command::pack_full fails with BadLength whenever the buffer length
differs from the declared payload length plus 3; on an exactly sized buffer
(payload length fitting a u8, pack_into succeeding) it produces the two
wire-encoded opcode bytes, then the payload length byte, then the payload
written by pack_into, whose length is exactly the declared payload
length. -/
theorem command_pack_full_c4 (opcode : Opcode) (byte_len : Nat)
    (pack_into : PackIntoFn) (buf : List Nat) :
    (buf.length ≠ byte_len + OPCODE_LEN + 1 →
      Command.pack_full opcode byte_len pack_into buf =
        some (.error .BadLength)) ∧
    (buf.length = byte_len + OPCODE_LEN + 1 → byte_len ≤ 0xFF →
      ∀ payload, pack_into (buf.drop 3) = .ok payload →
        Command.pack_full opcode byte_len pack_into buf =
          some (.ok (u16ToBytesLE opcode.toU16 ++ [byte_len] ++ payload.val,
            byte_len + OPCODE_LEN)) ∧
        payload.val.length = byte_len) := by
  refine ⟨?_, ?_⟩
  · intro h
    simp [Command.pack_full, h]
  · intro hlen hfit payload hpi
    have h3 : buf.length = byte_len + 3 := by simpa [OPCODE_LEN] using hlen
    have hplen : payload.val.length = byte_len := by
      have hp := payload.property
      have hd : (List.drop 3 buf).length = buf.length - 3 := List.length_drop 3 buf
      omega
    have htake : Opcode.pack opcode (buf.take OPCODE_LEN) =
        .ok (u16ToBytesLE opcode.toU16) := by
      have ht : (buf.take OPCODE_LEN).length = OPCODE_LEN := by
        rw [List.length_take, h3]
        simp [OPCODE_LEN]
      simp [Opcode.pack, ht]
    refine ⟨?_, hplen⟩
    simp [Command.pack_full, hlen, hpi, htake, hfit]

/-- C4 witness: the theorem applied at a concrete one-byte command whose
pack_into leaves the slice as is; the packed frame is header [0, 0, 1]
followed by the payload byte. -/
theorem command_pack_full_c4_witness :
    Command.pack_full Opcode.nop 1 packIntoId [5, 6, 7, 8] =
      some (.ok ([0, 0, 1, 8], 3)) := by
  have h := (command_pack_full_c4 Opcode.nop 1 packIntoId [5, 6, 7, 8]).2
    rfl (by decide) ⟨[8], rfl⟩ rfl
  exact h.1.trans (by rfl)

/-- C5: unpack_from_packet fails with BadOpcode whenever the packet event
code differs from the Return type's fixed event code — regardless of the
payload decoder — and delegates to the payload decoder when they agree. -/
theorem unpack_from_packet_c5 {R : Type} (event_code : EventCode)
    (unpack_from : List Nat → Except HCIPackError R) (packet : EventPacket) :
    (packet.event_opcode ≠ event_code →
      ReturnParameters.unpack_from_packet event_code unpack_from packet =
        .error .BadOpcode) ∧
    (packet.event_opcode = event_code →
      ReturnParameters.unpack_from_packet event_code unpack_from packet =
        unpack_from packet.parameters) := by
  constructor <;> intro h <;>
    simp [ReturnParameters.unpack_from_packet, h]

/-- C5 witness: the theorem applied to StatusReturn — a mismatched event
packet is rejected with BadOpcode even though its payload [0] decodes
validly, and a matched packet delegates to unpack_from. -/
theorem unpack_from_packet_c5_witness :
    ReturnParameters.unpack_from_packet StatusReturn.EVENT_CODE
      StatusReturn.unpack_from ⟨.InquiryComplete, [0]⟩ = .error .BadOpcode ∧
    StatusReturn.unpack_from [0] = .ok ⟨.Ok⟩ ∧
    ReturnParameters.unpack_from_packet StatusReturn.EVENT_CODE
      StatusReturn.unpack_from ⟨.CommandComplete, [0]⟩ =
      StatusReturn.unpack_from [0] := by
  refine ⟨?_, rfl, ?_⟩
  · exact (unpack_from_packet_c5 StatusReturn.EVENT_CODE
      StatusReturn.unpack_from ⟨.InquiryComplete, [0]⟩).1 (by decide)
  · exact (unpack_from_packet_c5 StatusReturn.EVENT_CODE
      StatusReturn.unpack_from ⟨.CommandComplete, [0]⟩).2 rfl

/-- C9: the claimed u8 round trip fails on the code for two EventCode
variants. The enum declares IOCapabilityRequest = 0x31 and
UserConfirmationRequest = 0x33, but the TryFrom u8 match maps
0x33 to IOCapabilityRequest and 0x31 to UserConfirmationRequest, so
converting either variant to its byte and back yields the other one. -/
theorem event_code_roundtrip_c9_bug :
    EventCode.toU8 .IOCapabilityRequest = 0x31 ∧
    EventCode.tryFrom 0x31 = .ok .UserConfirmationRequest ∧
    EventCode.toU8 .UserConfirmationRequest = 0x33 ∧
    EventCode.tryFrom 0x33 = .ok .IOCapabilityRequest ∧
    EventCode.UserConfirmationRequest ≠ EventCode.IOCapabilityRequest :=
  ⟨rfl, rfl, rfl, rfl, by decide⟩

/-- C10 counterexample: the ErrorCode variant TransactionCollision has
discriminant 0x2A, but TryFrom u8 for ErrorCode stops at 0x29, so the
round trip fails and a 1-byte StatusReturn payload holding 0x2A is
rejected as BadBytes. -/
theorem error_code_roundtrip_c10_counterexample :
    ErrorCode.toU8 .TransactionCollision = 0x2A ∧
    ErrorCode.tryFrom 0x2A = .error .mk ∧
    StatusReturn.unpack_from [0x2A] = .error .BadBytes :=
  ⟨rfl, rfl, rfl⟩

/-- C10 amended: every ErrorCode variant whose discriminant is at most
0x29 round-trips through TryFrom u8, and StatusReturn::unpack_from accepts
a 1-byte payload holding that discriminant. -/
theorem error_code_roundtrip_c10_amended (code : ErrorCode)
    (h : ErrorCode.toU8 code ≤ 0x29) :
    ErrorCode.tryFrom (ErrorCode.toU8 code) = .ok code ∧
    StatusReturn.unpack_from [ErrorCode.toU8 code] = .ok ⟨code⟩ := by
  revert h
  cases code <;> intro h <;>
    first
      | exact ⟨rfl, rfl⟩
      | exact absurd h (by decide)

/-- C10 amended witness: the theorem applied at HardwareFailure (0x03). -/
theorem error_code_roundtrip_c10_witness :
    ErrorCode.tryFrom (ErrorCode.toU8 .HardwareFailure) = .ok .HardwareFailure ∧
    StatusReturn.unpack_from [ErrorCode.toU8 .HardwareFailure] =
      .ok ⟨.HardwareFailure⟩ :=
  error_code_roundtrip_c10_amended .HardwareFailure (by decide)

/-- When every read before index N yields a non-matching event and the
event at index N matches, the retry loop started inside the remaining
budget terminates with the decoded return after N + 1 reads. -/
theorem sendCommandLoop_hits {Ev Ret : Type} (evs : Nat → Ev)
    (unpackReturn : Ev → Except HCIPackError (Option Ret)) (ret : Ret)
    (N : Nat)
    (hN : ∀ i, i < N → unpackReturn (evs i) = .ok none)
    (hM : unpackReturn (evs N) = .ok (some ret)) :
    ∀ remaining start, start ≤ N → N < start + remaining →
      sendCommandLoop (fun i => .ok (evs i)) unpackReturn remaining start =
        (.ok ret, N + 1) := by
  intro remaining
  induction remaining with
  | zero =>
    intro start h1 h2
    omega
  | succ remaining ih =>
    intro start h1 h2
    by_cases hs : start = N
    · subst hs
      simp [sendCommandLoop, hM]
    · have hlt : start < N := lt_of_le_of_ne h1 hs
      have hnone := hN start hlt
      simp only [sendCommandLoop, hnone]
      exact ih (start + 1) hlt (by omega)

/-- When every read in the remaining budget yields a non-matching event,
the retry loop exhausts the budget and fails with StreamFailed. -/
theorem sendCommandLoop_exhausts {Ev Ret : Type} (evs : Nat → Ev)
    (unpackReturn : Ev → Except HCIPackError (Option Ret)) :
    ∀ remaining start,
      (∀ i, start ≤ i → i < start + remaining →
        unpackReturn (evs i) = .ok none) →
      sendCommandLoop (fun i => .ok (evs i)) unpackReturn
        remaining start =
        (.error (.StreamError .StreamFailed), start + remaining) := by
  intro remaining
  induction remaining with
  | zero =>
    intro start h
    simp [sendCommandLoop]
  | succ remaining ih =>
    intro start h
    have h0 := h start (le_refl start) (by omega)
    simp only [sendCommandLoop, h0]
    rw [ih (start + 1) (fun i hi1 hi2 => h i (by omega) (by omega)),
      show start + 1 + remaining = start + (remaining + 1) from by omega]

/-- C2: with a transport stub yielding N non-matching events and then one
matching event, send_command returns the decoded Return exactly when
N is below the retry budget (after N + 1 reads); when the budget is at
most N it fails with the terminal StreamFailed error after exactly
budget-many reads; and a transport write failure is returned immediately
with zero event reads. -/
theorem adapter_send_command_c2 {Pkt Ev Ret : Type} (tries N : Nat)
    (pkt : Pkt) (evs : Nat → Ev)
    (unpackReturn : Ev → Except HCIPackError (Option Ret)) (ret : Ret)
    (e : AdapterError)
    (hN : ∀ i, i < N → unpackReturn (evs i) = .ok none)
    (hM : unpackReturn (evs N) = .ok (some ret)) :
    (N < tries →
      Adapter.send_command tries (.ok pkt) (fun _ => .ok ())
        (fun i => .ok (evs i)) unpackReturn = (.ok ret, N + 1)) ∧
    ((Adapter.send_command tries (.ok pkt) (fun _ => .ok ())
        (fun i => .ok (evs i)) unpackReturn).1 = .ok ret ↔ N < tries) ∧
    (tries ≤ N →
      Adapter.send_command tries (.ok pkt) (fun _ => .ok ())
        (fun i => .ok (evs i)) unpackReturn =
        (.error (.StreamError .StreamFailed), tries)) ∧
    (Adapter.send_command tries (.ok pkt) (fun _ => .error e)
        (fun i => .ok (evs i)) unpackReturn = (.error e, 0)) := by
  have hok : ∀ h : N < tries,
      Adapter.send_command tries (.ok pkt) (fun _ => .ok ())
        (fun i => .ok (evs i)) unpackReturn = (.ok ret, N + 1) := by
    intro h
    show sendCommandLoop (fun i => .ok (evs i)) unpackReturn tries 0 = _
    exact sendCommandLoop_hits evs unpackReturn ret N hN hM tries 0
      (by omega) (by omega)
  have hbad : tries ≤ N →
      Adapter.send_command tries (.ok pkt) (fun _ => .ok ())
        (fun i => .ok (evs i)) unpackReturn =
        (.error (.StreamError .StreamFailed), tries) := by
    intro h
    show sendCommandLoop (fun i => .ok (evs i)) unpackReturn tries 0 = _
    have := sendCommandLoop_exhausts evs unpackReturn tries 0
      (fun i hi1 hi2 => hN i (by omega))
    simpa using this
  refine ⟨hok, ?_, hbad, rfl⟩
  constructor
  · intro h
    by_contra hnot
    rw [hbad (by omega)] at h
    simp at h
  · intro h
    rw [hok h]

/-- C2 witness: the theorem applied to a concrete stub (events are their
indices, index 1 matches and decodes to 7): with budget 3 the exchange
succeeds after 2 reads, with budget 1 it fails with StreamFailed after 1
read, and a failing write returns BadParameter with 0 reads. -/
theorem adapter_send_command_c2_witness :
    Adapter.send_command 3 (.ok ()) (fun _ => .ok ()) (fun i => .ok i)
      (fun v => if v = 1 then .ok (some 7) else .ok none) = (.ok 7, 2) ∧
    Adapter.send_command 1 (.ok ()) (fun _ => .ok ()) (fun i => .ok i)
      (fun v => if v = 1 then .ok (some 7) else .ok none) =
      (.error (.StreamError .StreamFailed), 1) ∧
    Adapter.send_command 3 (.ok ()) (fun _ => .error .BadParameter)
      (fun i => .ok i)
      (fun v => if v = 1 then .ok (some 7) else .ok none) =
      (.error .BadParameter, 0) := by
  have hN : ∀ i, i < 1 →
      (if i = 1 then (.ok (some 7) : Except HCIPackError (Option Nat))
        else .ok none) = .ok none := by
    intro i hi
    have h0 : i = 0 := by omega
    subst h0
    rfl
  have h3 := adapter_send_command_c2 3 1 () (fun i => i)
    (fun v => if v = 1 then .ok (some 7) else .ok none) 7 .BadParameter hN rfl
  have h1 := adapter_send_command_c2 1 1 () (fun i => i)
    (fun v => if v = 1 then .ok (some 7) else .ok none) 7 .BadParameter hN rfl
  exact ⟨h3.1 (by omega), h1.2.2.1 (by omega), h3.2.2.2⟩

end Btle
